import Mathlib

/-!
Verification of the GENEVE-ENI CNI driver core
(`plugins/geneve-eni/driver/driver.go`) and the ENIConfig port-allocation
surface (`pkg/eniconfig/eniconfig.go`).

The Go code is embedded shallowly: every kernel/netlink operation the driver
performs is an oracle supplied through an environment record (the value the
kernel call would return), and each driver function is translated to a pure
Lean function returning the Go function's result together with a trace of the
operations it issued, in order.  Machine-level side effects (logging) are
dropped; everything that flows into a return value or a kernel call is kept.
-/

set_option maxHeartbeats 1000000

/-- A Go `error` value as the driver observes it: a raw `syscall.Errno`,
a plain message (`fmt.Errorf` / `errors.New`), or a wrapped error produced by
`errors.Wrap`/`errors.Wrapf` (message plus inner error). -/
inductive GoErr where
  | errno (n : Nat)
  | msg (s : String)
  | wrap (s : String) (inner : GoErr)
deriving DecidableEq, Repr

/-- Rendering of an error as `%v` would show it (for `fmt.Errorf` composition). -/
def GoErr.text : GoErr → String
  | .errno n => "errno " ++ toString n
  | .msg s => s
  | .wrap s e => s ++ ": " ++ e.text

/-- Whether an error is a wrapped error (produced by `errors.Wrap`/`Wrapf`). -/
def GoErr.isWrap : GoErr → Bool
  | .wrap _ _ => true
  | _ => false

/-- `syscall.ENOENT`. -/
def ENOENT : Nat := 2

/-- `syscall.EEXIST`. -/
def EEXIST : Nat := 17

/-- `containsNoSuchRule` (driver.go:432-437): true iff the error is the raw
errno `ENOENT` (a type assertion to `syscall.Errno`, so wrapped errors do not
match). -/
def containsNoSuchRule : GoErr → Bool
  | .errno n => n == ENOENT
  | _ => false

/-- driver.go:43 — to-container ip-rule priority. -/
def toContainerRulePriority : Int := 512

/-- driver.go:45 — from-container ip-rule priority. -/
def fromContainerRulePriority : Int := 1536

/-- driver.go:48 — `unix.RT_TABLE_MAIN`. -/
def mainRouteTable : Int := 254

/-- driver.go:50 — MTU given to the veth pair. -/
def ethernetMTU : Nat := 9001

/-- driver.go:52 — `retryAddLinInterval`, in seconds. -/
def retryAddLinInterval : Nat := 1

/-- `netlink.SCOPE_LINK`. -/
def scopeLink : Nat := 253

/-- `netlink.NUD_PERMANENT`. -/
def nudPermanent : Nat := 128

/-- A `*net.IPNet`: IPv4 address (as a 32-bit value) plus prefix length. -/
structure IPNet where
  ip : Nat
  maskLen : Nat
deriving DecidableEq, Repr

/-- `addr.String()` as used in error messages. -/
def ipNetText (a : IPNet) : String := toString a.ip ++ "/" ++ toString a.maskLen

/-- A resolved `netlink.Link`: name, device kind (`"bridge"`, `"veth"`,
`"geneve"`, ...) and interface index. -/
structure Link where
  name : String
  kind : String
  index : Nat
deriving DecidableEq, Repr

/-- A `netlink.Rule` restricted to the fields this driver reads or writes. -/
structure Rule where
  src : Option IPNet
  dst : Option IPNet
  table : Int
  priority : Int
deriving DecidableEq, Repr

/-- `netlink.NewRule()` defaults for the fields kept here (the external
netlink library initialises `Priority` to `-1` and leaves `Table` at zero,
`Src`/`Dst` nil). -/
def newRule : Rule := { src := none, dst := none, table := 0, priority := -1 }

/-- A `netlink.Route` restricted to the fields this driver sets. -/
structure Route where
  linkIndex : Nat
  scope : Nat
  dst : Option IPNet
deriving DecidableEq, Repr

/-- A `netlink.Neigh` restricted to the fields this driver sets. -/
structure Neigh where
  linkIndex : Nat
  state : Nat
  ip : Nat
  hwAddr : List Nat
deriving DecidableEq, Repr

/-- One kernel-facing operation issued by the driver, with its arguments. -/
inductive Ev where
  | cmdRunGeneve (geneveName cgwIP vni portStr : String)
  | linkByName (name : String)
  | sleep (secs : Nat)
  | linkSetUp (l : Link)
  | linkDel (l : Link)
  | vethAdd (contName hostName : String) (mtu : Nat)
  | bridgeAdd (name : String) (mtu : Nat)
  | routeAdd (r : Route)
  | routeDel (r : Route)
  | ruleAdd (r : Rule)
  | ruleDel (r : Rule)
  | addrAdd (l : Link) (a : IPNet)
  | addDefaultRoute (gw : Nat) (l : Link)
  | neighAdd (n : Neigh)
  | linkSetNsFd (l : Link)
  | setMaster (l : Link) (br : Link)
  | setNoMaster (l : Link)
  | setPromiscOn (name : String)
  | delRuleBySrc (src : IPNet)
deriving DecidableEq, Repr

/-- Oracles for the two rule operations `addContainerRule` issues, keyed by
the rule value passed to the kernel. -/
structure RuleEnv where
  ruleDel : Rule → Except GoErr Unit
  ruleAdd : Rule → Except GoErr Unit

/-- The rule object built by `addContainerRule` (driver.go:340-349):
destination = addr when to-container, source = addr otherwise, then table and
priority. -/
def mkContainerRule (isToContainer : Bool) (addr : IPNet) (priority table : Int) : Rule :=
  let r := if isToContainer then { newRule with dst := some addr }
           else { newRule with src := some addr }
  { r with table := table, priority := priority }

/-- `addContainerRule` (driver.go:340-361): build the rule, attempt to delete
a pre-existing identical rule ignoring "no such rule" errors, then add it. -/
def addContainerRule (renv : RuleEnv) (isToContainer : Bool) (addr : IPNet)
    (priority table : Int) : Except GoErr Unit × List Ev :=
  let containerRule := mkContainerRule isToContainer addr priority table
  match renv.ruleDel containerRule with
  | .error e =>
    if containsNoSuchRule e then
      match renv.ruleAdd containerRule with
      | .error e2 =>
        (.error (.wrap ("add NS network: failed to add container rule  for " ++ ipNetText addr) e2),
         [Ev.ruleDel containerRule, Ev.ruleAdd containerRule])
      | .ok _ => (.ok (), [Ev.ruleDel containerRule, Ev.ruleAdd containerRule])
    else
      (.error (.wrap ("add NS network: failed to delete old container rule for " ++ ipNetText addr) e),
       [Ev.ruleDel containerRule])
  | .ok _ =>
    match renv.ruleAdd containerRule with
    | .error e2 =>
      (.error (.wrap ("add NS network: failed to add container rule  for " ++ ipNetText addr) e2),
       [Ev.ruleDel containerRule, Ev.ruleAdd containerRule])
    | .ok _ => (.ok (), [Ev.ruleDel containerRule, Ev.ruleAdd containerRule])

/-- The fixed link-local gateway 169.254.1.1 (driver.go:139) as a 32-bit value. -/
def gwIP : Nat := 169 * 2 ^ 24 + 254 * 2 ^ 16 + 1 * 2 ^ 8 + 1

/-- `gwNet` (driver.go:140): 169.254.1.1/32. -/
def gwNet : IPNet := { ip := gwIP, maskLen := 32 }

/-- The parsed constant MAC "00:01:02:03:04:05" (driver.go:238). -/
def phyAddr : List Nat := [0, 1, 2, 3, 4, 5]

/-- Oracles for the operations `createVethPairContext.run` issues, in source
order; `ByName` oracles yield the resolved link. -/
structure VethEnv where
  linkAdd : Except GoErr Unit
  hostByName : Except GoErr Link
  hostSetUp : Except GoErr Unit
  contByName : Except GoErr Link
  contSetUp : Except GoErr Unit
  routeAdd : Except GoErr Unit
  defaultRoute : Except GoErr Unit
  addrAdd : Except GoErr Unit
  neighAdd : Except GoErr Unit
  setNsFd : Except GoErr Unit

/-- The connected route to the dummy next hop added on the container veth
(driver.go:142-145). -/
def contGwRoute (contVeth : Link) : Route :=
  { linkIndex := contVeth.index, scope := scopeLink, dst := some gwNet }

/-- The permanent neighbor entry for the gateway (driver.go:161-166). -/
def gwNeigh (contVeth : Link) (hwAddr : List Nat) : Neigh :=
  { linkIndex := contVeth.index, state := nudPermanent, ip := gwIP, hwAddr := hwAddr }

/-- `createVethPairContext.run` (driver.go:99-178), executed inside the pod
namespace: create the veth pair, bring both ends up, add the connected route
to 169.254.1.1/32, add the default route via it, assign the pod address,
add the static ARP entry, and finally move the host end to the host
namespace.  Each failure returns immediately; only the initial `LinkAdd`
failure is returned unwrapped (`return err`, driver.go:110). -/
def vethRun (venv : VethEnv) (contVethName hostVethName : String) (hwAddr : List Nat)
    (addr : IPNet) : Except GoErr Unit × List Ev :=
  let t1 := [Ev.vethAdd contVethName hostVethName ethernetMTU]
  match venv.linkAdd with
  | .error e => (.error e, t1)
  | .ok _ =>
  let t2 := t1 ++ [Ev.linkByName hostVethName]
  match venv.hostByName with
  | .error e =>
    (.error (.wrap ("setup NS network: failed to find link " ++ hostVethName) e), t2)
  | .ok hostVeth =>
  let t3 := t2 ++ [Ev.linkSetUp hostVeth]
  match venv.hostSetUp with
  | .error e =>
    (.error (.wrap ("setup NS network: failed to set link " ++ hostVethName ++ " up") e), t3)
  | .ok _ =>
  let t4 := t3 ++ [Ev.linkByName contVethName]
  match venv.contByName with
  | .error e =>
    (.error (.wrap ("setup NS network: failed to find link " ++ contVethName) e), t4)
  | .ok contVeth =>
  let t5 := t4 ++ [Ev.linkSetUp contVeth]
  match venv.contSetUp with
  | .error e =>
    (.error (.wrap ("setup NS network: failed to set link " ++ contVethName ++ " up") e), t5)
  | .ok _ =>
  let t6 := t5 ++ [Ev.routeAdd (contGwRoute contVeth)]
  match venv.routeAdd with
  | .error e => (.error (.wrap "setup NS network: failed to add default gateway" e), t6)
  | .ok _ =>
  let t7 := t6 ++ [Ev.addDefaultRoute gwIP contVeth]
  match venv.defaultRoute with
  | .error e => (.error (.wrap "setup NS network: failed to add default route" e), t7)
  | .ok _ =>
  let t8 := t7 ++ [Ev.addrAdd contVeth addr]
  match venv.addrAdd with
  | .error e =>
    (.error (.wrap ("setup NS network: failed to add IP addr to " ++ contVethName) e), t8)
  | .ok _ =>
  let t9 := t8 ++ [Ev.neighAdd (gwNeigh contVeth hwAddr)]
  match venv.neighAdd with
  | .error e => (.error (.wrap "setup NS network: failed to add static ARP" e), t9)
  | .ok _ =>
  let t10 := t9 ++ [Ev.linkSetNsFd hostVeth]
  match venv.setNsFd with
  | .error e => (.error (.wrap "setup NS network: failed to move veth to host netns" e), t10)
  | .ok _ => (.ok (), t10)

/-- The full, successful trace of `createVethPairContext.run`, in source
order, given the two resolved veth ends. -/
def vethFullTrace (contVethName hostVethName : String) (hwAddr : List Nat) (addr : IPNet)
    (hostVeth contVeth : Link) : List Ev :=
  [Ev.vethAdd contVethName hostVethName ethernetMTU,
   Ev.linkByName hostVethName,
   Ev.linkSetUp hostVeth,
   Ev.linkByName contVethName,
   Ev.linkSetUp contVeth,
   Ev.routeAdd (contGwRoute contVeth),
   Ev.addDefaultRoute gwIP contVeth,
   Ev.addrAdd contVeth addr,
   Ev.neighAdd (gwNeigh contVeth hwAddr),
   Ev.linkSetNsFd hostVeth]

/-- Oracles for the operations `ensureBridge`/`bridgeByName` issue. -/
structure BridgeEnv where
  linkAdd : Except GoErr Unit
  setPromiscOn : Except GoErr Unit
  byName : Except GoErr Link
  brSetUp : Except GoErr Unit

/-- `bridgeByName` (driver.go:439-449): resolve by name, fail if absent or if
the resolved link is not a bridge. -/
def bridgeByName (byName : Except GoErr Link) (name : String) : Except GoErr Link × List Ev :=
  match byName with
  | .error e =>
    (.error (.msg ("could not lookup " ++ name ++ ": " ++ e.text)), [Ev.linkByName name])
  | .ok l =>
    if l.kind = "bridge" then (.ok l, [Ev.linkByName name])
    else (.error (.msg (name ++ " already exists but is not a bridge")), [Ev.linkByName name])

/-- Tail of `ensureBridge` after `netlink.LinkAdd` has been accepted
(driver.go:469-486): optional promiscuous mode, re-fetch by name, bring up. -/
def ensureBridgeAfterAdd (benv : BridgeEnv) (brName : String) (mtu : Nat)
    (promiscMode : Bool) : Except GoErr Link × List Ev :=
  let t0 := [Ev.bridgeAdd brName mtu]
  let next := fun (t : List Ev) =>
    match bridgeByName benv.byName brName with
    | (.error e, tb) => (.error e, t ++ tb)
    | (.ok br, tb) =>
      match benv.brSetUp with
      | .error e => (.error e, t ++ tb ++ [Ev.linkSetUp br])
      | .ok _ => (.ok br, t ++ tb ++ [Ev.linkSetUp br])
  if promiscMode then
    match benv.setPromiscOn with
    | .error e =>
      (.error (.msg ("could not set promiscuous mode on " ++ brName ++ ": " ++ e.text)),
       t0 ++ [Ev.setPromiscOn brName])
    | .ok _ => next (t0 ++ [Ev.setPromiscOn brName])
  else next t0

/-- `ensureBridge` (driver.go:451-487): create the bridge treating `EEXIST`
as success, optionally enable promiscuous mode, re-resolve by name verifying
it is a bridge, and bring it up before returning it. -/
def ensureBridge (benv : BridgeEnv) (brName : String) (mtu : Nat)
    (promiscMode : Bool) : Except GoErr Link × List Ev :=
  match benv.linkAdd with
  | .error e =>
    if e = GoErr.errno EEXIST then ensureBridgeAfterAdd benv brName mtu promiscMode
    else (.error (.msg ("could not add " ++ brName ++ ": " ++ e.text)), [Ev.bridgeAdd brName mtu])
  | .ok _ => ensureBridgeAfterAdd benv brName mtu promiscMode

/-- Oracles for `setupNS` (driver.go:187-338).  `cmdRun` is the external
`ip link add ... type geneve ...` invocation; its error is only logged
(driver.go:200-202) and the local `err` variable is overwritten by the first
`LinkByName` of the poll before any other use, so the field does not flow
into the result.  `geneveLookup n` is the result of the (n+1)-th
`LinkByName(geneveName)` of the visibility poll. -/
structure SetupEnv where
  cmdRun : Except GoErr Unit
  geneveLookup : Nat → Except GoErr Link
  geneveSetUp : Except GoErr Unit
  oldHostVeth : Except GoErr Link
  oldHostVethDel : Except GoErr Unit
  nsEnter : Except GoErr Unit
  vethEnv : VethEnv
  hostVethLookup : Except GoErr Link
  hostVethSetUp : Except GoErr Unit
  brEnv : BridgeEnv
  setMasterHost : Except GoErr Unit
  setMasterGeneve : Except GoErr Unit
  hostRouteAdd : Except GoErr Unit
  ruleEnv : RuleEnv
  parseCIDR : String → Option IPNet

/-- The visibility-poll loop of `setupNS` (driver.go:205-222) after the first
lookup is reached with `left` further lookups still permitted: resolve
`geneveName`; on failure sleep 1s and retry; the attempt after `left` more
failures returns the wrapped "failed to find link" error carrying the last
lookup failure.  `i` counts lookups already made. -/
def pollAux (lookup : Nat → Except GoErr Link) (gname : String) :
    Nat → Nat → Except GoErr Link × List Ev
  | 0, i =>
    match lookup i with
    | .ok l => (.ok l, [Ev.linkByName gname])
    | .error e =>
      (.error (.wrap ("setup NS network: failed to find link " ++ gname) e),
       [Ev.linkByName gname, Ev.sleep retryAddLinInterval])
  | left + 1, i =>
    match lookup i with
    | .ok l => (.ok l, [Ev.linkByName gname])
    | .error _ =>
      let r := pollAux lookup gname left (i + 1)
      (r.1, Ev.linkByName gname :: Ev.sleep retryAddLinInterval :: r.2)

/-- The whole visibility poll: the Go loop bounds `retry` by 5, so the first
lookup may be followed by at most 4 more. -/
def pollGo (lookup : Nat → Except GoErr Link) (gname : String) : Except GoErr Link × List Ev :=
  pollAux lookup gname 4 0

/-- Sequencing of two traced fallible steps: on error the first step's result
and trace are final; on success the continuation runs and its trace is
appended (the fail-fast composition of consecutive statements in `setupNS`). -/
def seqE {α β : Type} (r : Except GoErr α × List Ev)
    (f : α → Except GoErr β × List Ev) : Except GoErr β × List Ev :=
  match r with
  | (.error e, t) => (.error e, t)
  | (.ok a, t) => ((f a).1, t ++ (f a).2)

/-- driver.go:191-227: the external geneve creation (result only logged),
the visibility poll, and `LinkSetUp` on the found geneve link. -/
def setupGenevePhase (env : SetupEnv) (geneveName cgwIP vni : String) (port : Int) :
    Except GoErr Link × List Ev :=
  let cmdEv := Ev.cmdRunGeneve geneveName cgwIP vni (toString port)
  match pollGo env.geneveLookup geneveName with
  | (.error e, t) => (.error e, cmdEv :: t)
  | (.ok geneveVeth, t) =>
    match env.geneveSetUp with
    | .error e =>
      (.error (.wrap ("setup NS network: failed to set link " ++ geneveName ++ " up") e),
       cmdEv :: t ++ [Ev.linkSetUp geneveVeth])
    | .ok _ => (.ok geneveVeth, cmdEv :: t ++ [Ev.linkSetUp geneveVeth])

/-- driver.go:229-235: delete a stale host veth of the target name if one
exists; a failed lookup just means nothing to clean. -/
def staleCleanupPhase (env : SetupEnv) (hostVethName : String) :
    Except GoErr Unit × List Ev :=
  match env.oldHostVeth with
  | .error _ => (.ok (), [Ev.linkByName hostVethName])
  | .ok oldHostVeth =>
    match env.oldHostVethDel with
    | .error e =>
      (.error (.wrap ("setup NS network: failed to delete old hostVeth " ++ hostVethName) e),
       [Ev.linkByName hostVethName, Ev.linkDel oldHostVeth])
    | .ok _ => (.ok (), [Ev.linkByName hostVethName, Ev.linkDel oldHostVeth])

/-- driver.go:237-248: run `createVethPairContext.run` inside the pod
namespace via `WithNetNSPath` (whose own entry failure, or the closure's
failure, is wrapped identically). -/
def nsPhase (env : SetupEnv) (contVethName hostVethName : String) (addr : IPNet) :
    Except GoErr Unit × List Ev :=
  let inner :=
    match env.nsEnter with
    | .error e => ((Except.error e : Except GoErr Unit), ([] : List Ev))
    | .ok _ => vethRun env.vethEnv contVethName hostVethName phyAddr addr
  match inner with
  | (.error e, t) => (.error (.wrap "setup NS network: failed to setup NS network" e), t)
  | (.ok _, t) => (.ok (), t)

/-- driver.go:250-259: resolve the host veth back on the host side and bring
it up. -/
def hostVethPhase (env : SetupEnv) (hostVethName : String) : Except GoErr Link × List Ev :=
  match env.hostVethLookup with
  | .error e =>
    (.error (.wrap ("setup NS network: failed to find link " ++ hostVethName) e),
     [Ev.linkByName hostVethName])
  | .ok hostVeth =>
    match env.hostVethSetUp with
    | .error e =>
      (.error (.wrap ("setup NS network: failed to set link " ++ hostVethName ++ " up") e),
       [Ev.linkByName hostVethName, Ev.linkSetUp hostVeth])
    | .ok _ => (.ok hostVeth, [Ev.linkByName hostVethName, Ev.linkSetUp hostVeth])

/-- driver.go:261-278: ensure the bridge (MTU 1500, promiscuous) and attach
the host veth and the geneve link as bridge ports. -/
def bridgePhase (env : SetupEnv) (brName : String) (hostVeth geneveVeth : Link) :
    Except GoErr Link × List Ev :=
  match ensureBridge env.brEnv brName 1500 true with
  | (.error e, t) =>
    (.error (.msg ("failed to create bridge " ++ brName ++ ": " ++ e.text)), t)
  | (.ok br, t) =>
    match env.setMasterHost with
    | .error e =>
      (.error (.msg ("failed to connect " ++ hostVeth.name ++ " to bridge " ++ br.name ++
        ": " ++ e.text)), t ++ [Ev.setMaster hostVeth br])
    | .ok _ =>
      match env.setMasterGeneve with
      | .error e =>
        (.error (.msg ("failed to connect " ++ geneveVeth.name ++ " to bridge " ++ br.name ++
          ": " ++ e.text)), t ++ [Ev.setMaster hostVeth br, Ev.setMaster geneveVeth br])
      | .ok _ => (.ok br, t ++ [Ev.setMaster hostVeth br, Ev.setMaster geneveVeth br])

/-- The host-scoped /32 route to the pod address via the host veth
(driver.go:281-289). -/
def hostRoute (addr : IPNet) (hostVeth : Link) : Route :=
  { linkIndex := hostVeth.index, scope := scopeLink,
    dst := some { ip := addr.ip, maskLen := 32 } }

/-- driver.go:280-291: add the host route to the pod address. -/
def hostRoutePhase (env : SetupEnv) (addr : IPNet) (hostVeth : Link) :
    Except GoErr Unit × List Ev :=
  match env.hostRouteAdd with
  | .error e =>
    (.error (.wrap "setup NS network: failed to add host route" e),
     [Ev.routeAdd (hostRoute addr hostVeth)])
  | .ok _ => (.ok (), [Ev.routeAdd (hostRoute addr hostVeth)])

/-- driver.go:292-300: install the to-container rule (priority 512, main
table) via `addContainerRule`. -/
def toPodRulePhase (renv : RuleEnv) (addr : IPNet) : Except GoErr Unit × List Ev :=
  match addContainerRule renv true addr toContainerRulePriority mainRouteTable with
  | (.error e, t) => (.error (.wrap "setup NS network: failed to add toContainer" e), t)
  | (.ok _, t) => (.ok (), t)

/-- The per-CIDR from-pod rule built in the loop at driver.go:316-321:
destination parsed from the CIDR string (parse errors ignored), source = pod
address, the given table, priority 1536. -/
def podRuleFor (parse : String → Option IPNet) (addr : IPNet) (table : Int)
    (cidr : String) : Rule :=
  { newRule with dst := parse cidr, src := some addr,
                 table := table, priority := fromContainerRulePriority }

/-- The loop at driver.go:316-334: add one from-pod rule per VPC CIDR,
directly via `RuleAdd` (no delete-then-add guard), aborting on the first
failure with a wrapped error. -/
def cidrLoop (ruleAdd : Rule → Except GoErr Unit) (parse : String → Option IPNet)
    (addr : IPNet) (table : Int) : List String → Except GoErr Unit × List Ev
  | [] => (.ok (), [])
  | cidr :: rest =>
    let podRule := podRuleFor parse addr table cidr
    match ruleAdd podRule with
    | .error e =>
      (.error (.wrap "UpdateRuleListBySrc: failed to add pod rule" e), [Ev.ruleAdd podRule])
    | .ok _ =>
      let r := cidrLoop ruleAdd parse addr table rest
      (r.1, Ev.ruleAdd podRule :: r.2)

/-- driver.go:302-336: the from-pod rules, only when `table > 0`: a single
from-pod rule via `addContainerRule` under external SNAT, else the per-CIDR
loop. -/
def fromPodPhase (renv : RuleEnv) (parse : String → Option IPNet) (addr : IPNet)
    (table : Int) (vpcCIDRs : List String) (useExternalSNAT : Bool) :
    Except GoErr Unit × List Ev :=
  if table > 0 then
    if useExternalSNAT then
      match addContainerRule renv false addr fromContainerRulePriority table with
      | (.error e, t) => (.error (.wrap "add NS network: failed to add fromContainer rule" e), t)
      | (.ok _, t) => (.ok (), t)
    else cidrLoop renv.ruleAdd parse addr table vpcCIDRs
  else (.ok (), [])

/-- The attach pipeline from the stale-veth cleanup on (driver.go:229-338),
given the geneve link found by the poll. -/
def setupRest (env : SetupEnv) (hostVethName contVethName brName : String) (addr : IPNet)
    (table : Int) (vpcCIDRs : List String) (useExternalSNAT : Bool) (geneveVeth : Link) :
    Except GoErr Unit × List Ev :=
  seqE (staleCleanupPhase env hostVethName) (fun _ =>
  seqE (nsPhase env contVethName hostVethName addr) (fun _ =>
  seqE (hostVethPhase env hostVethName) (fun hostVeth =>
  seqE (bridgePhase env brName hostVeth geneveVeth) (fun _ =>
  seqE (hostRoutePhase env addr hostVeth) (fun _ =>
  seqE (toPodRulePhase env.ruleEnv addr) (fun _ =>
  fromPodPhase env.ruleEnv env.parseCIDR addr table vpcCIDRs useExternalSNAT))))))

/-- `setupNS` (driver.go:187-338): the fail-fast attach pipeline, phase by
phase in source order. -/
def setupNS (env : SetupEnv) (hostVethName contVethName geneveName brName : String)
    (addr : IPNet) (table : Int) (vpcCIDRs : List String) (useExternalSNAT : Bool)
    (cgwIP vni : String) (port : Int) : Except GoErr Unit × List Ev :=
  seqE (setupGenevePhase env geneveName cgwIP vni port) (fun geneveVeth =>
  setupRest env hostVethName contVethName brName addr table vpcCIDRs useExternalSNAT geneveVeth)

/-- Oracles for `tearDownNS` (driver.go:369-425).  `setNoMaster`,
`geneveDel`, `brDel`, `toPodRuleDel` and `hostRouteDel` are issued but their
results are only logged by the Go code (the return value never consults
them); `delRuleListBySrc` is `networkutils.DeleteRuleListBySrc`, an external
collaborator modelled as an oracle. -/
structure TeardownEnv where
  geneveLookup : Except GoErr Link
  setNoMaster : Except GoErr Unit
  geneveDel : Except GoErr Unit
  brByName : Except GoErr Link
  brDel : Except GoErr Unit
  toPodRuleDel : Except GoErr Unit
  delRuleListBySrc : Except GoErr Unit
  hostRouteDel : Except GoErr Unit

/-- The to-pod rule deleted during teardown (driver.go:393-396): built from
`NewRule()` with only destination and priority set. -/
def toPodDelRule (addr : IPNet) : Rule :=
  { newRule with dst := some addr, priority := toContainerRulePriority }

/-- The host /32 route deleted during teardown (driver.go:414-421): scope
link, destination = pod address /32, no link index. -/
def hostDelRoute (addr : IPNet) : Route :=
  { linkIndex := 0, scope := scopeLink, dst := some { ip := addr.ip, maskLen := 32 } }

/-- `tearDownNS` (driver.go:369-425): best-effort teardown.  Steps 1 (geneve
detach/delete), 2 (bridge delete), 3 (to-pod rule delete) and 5 (host route
delete) log their failures; only a failure of `deleteRuleListBySrc` when
`table > 0` is returned, and in that case the host-route deletion is not
reached. -/
def tearDownNS (tenv : TeardownEnv) (addr : IPNet) (table : Int)
    (hostVethName geneveName brName : String) : Except GoErr Unit × List Ev :=
  let t1 :=
    match tenv.geneveLookup with
    | .error _ => [Ev.linkByName geneveName]
    | .ok geneveVeth => [Ev.linkByName geneveName, Ev.setNoMaster geneveVeth,
                         Ev.linkDel geneveVeth]
  let t2 :=
    match bridgeByName tenv.brByName brName with
    | (.error _, tb) => tb
    | (.ok br, tb) => tb ++ [Ev.linkDel br]
  let t3 := [Ev.ruleDel (toPodDelRule addr)]
  if table > 0 then
    match tenv.delRuleListBySrc with
    | .error e =>
      (.error (.wrap ("delete NS network: failed to delete fromContainer rule for " ++
         ipNetText addr) e), t1 ++ t2 ++ t3 ++ [Ev.delRuleBySrc addr])
    | .ok _ =>
      (.ok (), t1 ++ t2 ++ t3 ++ [Ev.delRuleBySrc addr, Ev.routeDel (hostDelRoute addr)])
  else (.ok (), t1 ++ t2 ++ t3 ++ [Ev.routeDel (hostDelRoute addr)])

/-- The parameter names of `TeardownNS` as declared by the `NetworkAPIs`
interface (driver.go:59), in order. -/
def networkAPIsTeardownParams : List String :=
  ["addr", "table", "hostVethName", "contVethName", "geneveName"]

/-- The parameter names of the concrete `linuxNetwork.TeardownNS`
implementation (driver.go:364), in order; its fourth parameter is the geneve
(tunnel) name it resolves and deletes, and its fifth the bridge name. -/
def linuxNetworkTeardownParams : List String :=
  ["addr", "table", "hostVethName", "geneveName", "brName"]

/-- The parameter meanings required by the spec's interface contract:
pod address, routing-table id, host veth name, tunnel name, bridge name. -/
def specTeardownParams : List String :=
  ["addr", "table", "hostVethName", "tunnelName", "bridgeName"]

/-- `UnKnownNetwork` (eniconfig.go:58). -/
def UnKnownNetwork : GoErr := .msg "eniconfig: unknown network"

/-- `v1alpha1.ENIConfigSpec`, restricted to the fields `AllocatePort`
reads. -/
structure ENIConfigSpec where
  securityGroups : List String
  subnet : String
  cgwIP : String
  vnid : String
deriving DecidableEq, Repr

/-- An opaque handle for a `portstore.PortMap` (the portstore package is an
external collaborator; its internals are not modelled). -/
structure PortMap where
  id : Nat
deriving DecidableEq, Repr

/-- A port-allocator event: which port table was asked to allocate or
release. -/
inductive PEv where
  | alloc (pm : PortMap) (podName : String)
  | release (pm : PortMap) (port : Int)
deriving DecidableEq, Repr

/-- The `ENIConfigController` state consulted by `AllocatePort` /
`ReleasePort`: the per-network config map, the per-network port tables, and
the external portstore operations as oracles. -/
structure ENIEnv where
  eni : String → Option ENIConfigSpec
  portMap : String → Option PortMap
  allocPort : PortMap → String → Except GoErr Int
  releasePort : PortMap → Int → Except GoErr Unit

/-- `ENIConfigController.AllocatePort` (eniconfig.go:190-215): missing config
or missing port table yields `(-1, "", "", UnKnownNetwork)` without touching
the allocator; otherwise the allocator's port is returned together with the
network's CGWIP and VNID. -/
def AllocatePort (c : ENIEnv) (networkName podName : String) :
    (Int × String × String × Option GoErr) × List PEv :=
  match c.eni networkName with
  | none => ((-1, "", "", some UnKnownNetwork), [])
  | some eni =>
    match c.portMap networkName with
    | none => ((-1, "", "", some UnKnownNetwork), [])
    | some portMap =>
      match c.allocPort portMap podName with
      | .error e => ((-1, "", "", some e), [PEv.alloc portMap podName])
      | .ok port => ((port, eni.cgwIP, eni.vnid, none), [PEv.alloc portMap podName])

/-- `ENIConfigController.ReleasePort` (eniconfig.go:217-234): missing port
table yields `UnKnownNetwork` without touching the allocator. -/
def ReleasePort (c : ENIEnv) (networkName : String) (port : Int) :
    Option GoErr × List PEv :=
  match c.portMap networkName with
  | none => (some UnKnownNetwork, [])
  | some portMap =>
    match c.releasePort portMap port with
    | .error e => (some e, [PEv.release portMap port])
    | .ok _ => (none, [PEv.release portMap port])

/-- Recognises a `LinkByName` call for the given name. -/
def isLookupOf (g : String) : Ev → Bool
  | .linkByName n => n == g
  | _ => false

/-- Recognises a sleep. -/
def isSleepEv : Ev → Bool
  | .sleep _ => true
  | _ => false

/-- Recognises the installation of a from-pod rule (priority 1536). -/
def isFromPodRuleAdd : Ev → Bool
  | .ruleAdd r => r.priority == fromContainerRulePriority
  | _ => false

/-- All hypotheses for an attach on which every kernel operation up to and
including the to-container rule installation succeeds: the geneve link is
visible on the first poll, no stale host veth exists, the veth closure's
operations succeed resolving the two ends `vhl`/`vcl`, the host veth resolves
to `hostVeth`, and the bridge resolves to `br` (a bridge). -/
def SetupOk (env : SetupEnv) (addr : IPNet) (gv hostVeth br vhl vcl : Link) : Prop :=
  env.geneveLookup 0 = .ok gv ∧
  env.geneveSetUp = .ok () ∧
  (∃ e, env.oldHostVeth = .error e) ∧
  env.nsEnter = .ok () ∧
  env.vethEnv.linkAdd = .ok () ∧
  env.vethEnv.hostByName = .ok vhl ∧
  env.vethEnv.hostSetUp = .ok () ∧
  env.vethEnv.contByName = .ok vcl ∧
  env.vethEnv.contSetUp = .ok () ∧
  env.vethEnv.routeAdd = .ok () ∧
  env.vethEnv.defaultRoute = .ok () ∧
  env.vethEnv.addrAdd = .ok () ∧
  env.vethEnv.neighAdd = .ok () ∧
  env.vethEnv.setNsFd = .ok () ∧
  env.hostVethLookup = .ok hostVeth ∧
  env.hostVethSetUp = .ok () ∧
  env.brEnv.linkAdd = .ok () ∧
  env.brEnv.setPromiscOn = .ok () ∧
  env.brEnv.byName = .ok br ∧
  br.kind = "bridge" ∧
  env.brEnv.brSetUp = .ok () ∧
  env.setMasterHost = .ok () ∧
  env.setMasterGeneve = .ok () ∧
  env.hostRouteAdd = .ok () ∧
  env.ruleEnv.ruleDel (mkContainerRule true addr toContainerRulePriority mainRouteTable) = .ok () ∧
  env.ruleEnv.ruleAdd (mkContainerRule true addr toContainerRulePriority mainRouteTable) = .ok ()

/-- The trace of a fully successful `setupNS` up to (and including) the
to-container rule installation, before the from-pod phase. -/
def setupPreTrace (hostVethName contVethName geneveName brName cgwIP vni : String)
    (port : Int) (addr : IPNet) (gv hostVeth br vhl vcl : Link) : List Ev :=
  Ev.cmdRunGeneve geneveName cgwIP vni (toString port) ::
  Ev.linkByName geneveName :: Ev.linkSetUp gv ::
  Ev.linkByName hostVethName ::
  vethFullTrace contVethName hostVethName phyAddr addr vhl vcl ++
  [Ev.linkByName hostVethName, Ev.linkSetUp hostVeth,
   Ev.bridgeAdd brName 1500, Ev.setPromiscOn brName, Ev.linkByName brName, Ev.linkSetUp br,
   Ev.setMaster hostVeth br, Ev.setMaster gv br,
   Ev.routeAdd (hostRoute addr hostVeth),
   Ev.ruleDel (mkContainerRule true addr toContainerRulePriority mainRouteTable),
   Ev.ruleAdd (mkContainerRule true addr toContainerRulePriority mainRouteTable)]

/-- Concrete links and addresses used to instantiate the theorems. -/
def linkG : Link := { name := "gnv1", kind := "geneve", index := 7 }

def linkHost : Link := { name := "h1", kind := "veth", index := 11 }

def linkCont : Link := { name := "c1", kind := "veth", index := 3 }

def linkBr : Link := { name := "br0", kind := "bridge", index := 21 }

/-- 10.0.1.5/32. -/
def addr0 : IPNet := { ip := 167772421, maskLen := 32 }

def vethEnvOk : VethEnv :=
  { linkAdd := .ok (), hostByName := .ok linkHost, hostSetUp := .ok (),
    contByName := .ok linkCont, contSetUp := .ok (), routeAdd := .ok (),
    defaultRoute := .ok (), addrAdd := .ok (), neighAdd := .ok (), setNsFd := .ok () }

def vethEnvAddFail : VethEnv := { vethEnvOk with linkAdd := .error (.msg "veth add failed") }

def brEnvOk : BridgeEnv :=
  { linkAdd := .ok (), setPromiscOn := .ok (), byName := .ok linkBr, brSetUp := .ok () }

def ruleEnvOk : RuleEnv := { ruleDel := fun _ => .ok (), ruleAdd := fun _ => .ok () }

/-- A parse oracle mapping every CIDR string to 10.0.0.0/16. -/
def parse0 : String → Option IPNet := fun _ => some { ip := 167772160, maskLen := 16 }

def setupEnvOk : SetupEnv :=
  { cmdRun := .ok (), geneveLookup := fun _ => .ok linkG, geneveSetUp := .ok (),
    oldHostVeth := .error (.msg "Link not found"), oldHostVethDel := .ok (),
    nsEnter := .ok (), vethEnv := vethEnvOk, hostVethLookup := .ok linkHost,
    hostVethSetUp := .ok (), brEnv := brEnvOk, setMasterHost := .ok (),
    setMasterGeneve := .ok (), hostRouteAdd := .ok (), ruleEnv := ruleEnvOk,
    parseCIDR := parse0 }

def setupEnvNoLink : SetupEnv :=
  { setupEnvOk with geneveLookup := fun _ => .error (.msg "Link not found") }

def teardownEnvOk : TeardownEnv :=
  { geneveLookup := .ok linkG, setNoMaster := .ok (), geneveDel := .ok (),
    brByName := .ok linkBr, brDel := .ok (), toPodRuleDel := .ok (),
    delRuleListBySrc := .ok (), hostRouteDel := .ok () }

def teardownEnvRuleFail : TeardownEnv :=
  { teardownEnvOk with delRuleListBySrc := .error (.msg "rule del failed") }

def eniSpec0 : ENIConfigSpec :=
  { securityGroups := ["sg-1"], subnet := "subnet-1", cgwIP := "10.0.2.10", vnid := "100" }

def eniEnv0 : ENIEnv :=
  { eni := fun n => if n = "net1" then some eniSpec0 else none,
    portMap := fun n => if n = "net1" then some { id := 1 } else none,
    allocPort := fun _ _ => .ok 4000,
    releasePort := fun _ _ => .ok () }

def brEnvExist : BridgeEnv := { brEnvOk with linkAdd := .error (.errno EEXIST) }

/-- Helper: the trace of a sequenced computation extends the first step's
trace. -/
theorem seqE_trace_extends {α β : Type} (r : Except GoErr α × List Ev)
    (f : α → Except GoErr β × List Ev) : ∃ rest, (seqE r f).2 = r.2 ++ rest := by
  obtain ⟨res, t⟩ := r
  cases res with
  | error e => exact ⟨[], by simp [seqE]⟩
  | ok a => exact ⟨(f a).2, by simp [seqE]⟩

/-- Helper: the poll loop makes at most `left + 1` lookups and at most
`left + 1` sleeps. -/
theorem pollAux_counts (lookup : Nat → Except GoErr Link) (g : String) :
    ∀ left i, ((pollAux lookup g left i).2.countP (isLookupOf g) ≤ left + 1) ∧
      ((pollAux lookup g left i).2.countP isSleepEv ≤ left + 1) := by
  intro left
  induction left with
  | zero =>
    intro i
    cases h : lookup i <;>
      simp [pollAux, h, isLookupOf, isSleepEv, List.countP_cons, List.countP_nil]
  | succ n ih =>
    intro i
    cases h : lookup i with
    | ok l => simp [pollAux, h, isLookupOf, isSleepEv, List.countP_cons, List.countP_nil]
    | error e =>
      have := ih (i + 1)
      simp only [pollAux, h, List.countP_cons, List.countP_nil] at this ⊢
      constructor
      · have h1 := this.1
        simp [isLookupOf, isSleepEv] at h1 ⊢
        omega
      · have h2 := this.2
        simp [isLookupOf, isSleepEv] at h2 ⊢
        omega

/-- Helper: under `SetupOk` the attach pipeline reaches the from-pod phase,
whose result it returns, with the full pre-trace followed by that phase's
trace. -/
theorem setupNS_ok (env : SetupEnv) (h c g b cgw vni : String) (port : Int)
    (addr : IPNet) (table : Int) (cidrs : List String) (snat : Bool)
    (gv hostVeth br vhl vcl : Link)
    (hok : SetupOk env addr gv hostVeth br vhl vcl) :
    setupNS env h c g b addr table cidrs snat cgw vni port
      = ((fromPodPhase env.ruleEnv env.parseCIDR addr table cidrs snat).1,
         setupPreTrace h c g b cgw vni port addr gv hostVeth br vhl vcl
           ++ (fromPodPhase env.ruleEnv env.parseCIDR addr table cidrs snat).2) := by
  obtain ⟨h1, h2, ⟨eo, h3⟩, h4, v1, v2, v3, v4, v5, v6, v7, v8, v9, v10,
    h5, h6, b1, b2, b3, b4, b5, h7, h8, h9, r1, r2⟩ := hok
  simp [setupNS, setupRest, seqE, setupGenevePhase, pollGo, pollAux, staleCleanupPhase,
    nsPhase, vethRun, hostVethPhase, bridgePhase, ensureBridge, ensureBridgeAfterAdd,
    bridgeByName, hostRoutePhase, toPodRulePhase, addContainerRule, setupPreTrace,
    vethFullTrace,
    h1, h2, h3, h4, v1, v2, v3, v4, v5, v6, v7, v8, v9, v10, h5, h6, b1, b2, b3, b4, b5,
    h7, h8, h9, r1, r2]

/-- Helper: when every per-CIDR rule add succeeds the loop installs exactly
one rule per CIDR, in order. -/
theorem cidrLoop_ok (ra : Rule → Except GoErr Unit) (parse : String → Option IPNet)
    (addr : IPNet) (table : Int) :
    ∀ cidrs : List String,
      (∀ cc ∈ cidrs, ra (podRuleFor parse addr table cc) = .ok ()) →
      cidrLoop ra parse addr table cidrs
        = (.ok (), cidrs.map fun cc => Ev.ruleAdd (podRuleFor parse addr table cc)) := by
  intro cidrs
  induction cidrs with
  | nil => intro _; rfl
  | cons a l ih =>
    intro hall
    have ha := hall a (List.mem_cons_self a l)
    have hl := fun cc hcc => hall cc (List.mem_cons_of_mem a hcc)
    simp [cidrLoop, ha, ih hl]

/-- Helper: the per-CIDR loop never issues a rule deletion. -/
theorem cidrLoop_no_ruleDel (ra : Rule → Except GoErr Unit) (parse : String → Option IPNet)
    (addr : IPNet) (table : Int) :
    ∀ (cidrs : List String) (r : Rule), Ev.ruleDel r ∉ (cidrLoop ra parse addr table cidrs).2 := by
  intro cidrs
  induction cidrs with
  | nil => intro r; simp [cidrLoop]
  | cons a l ih =>
    intro r
    cases hra : ra (podRuleFor parse addr table a) with
    | error e => simp [cidrLoop, hra]
    | ok _ => simp [cidrLoop, hra]; exact ih r

/-- Helper: every event the per-CIDR loop emits is a from-pod rule add, so
filtering for those is the identity on its successful trace. -/
theorem filter_fromPod_map (parse : String → Option IPNet) (addr : IPNet) (table : Int)
    (cidrs : List String) :
    (cidrs.map fun cc => Ev.ruleAdd (podRuleFor parse addr table cc)).filter isFromPodRuleAdd
      = cidrs.map fun cc => Ev.ruleAdd (podRuleFor parse addr table cc) := by
  induction cidrs with
  | nil => rfl
  | cons a l ih => simp [List.filter, isFromPodRuleAdd, podRuleFor, ih]

/-- C1: in `setupNS` the failure of the external geneve-creation invocation
is non-fatal — the result and trace do not depend on it and the visibility
poll always runs; the poll resolves the tunnel name at most 5 times, sleeping
1 second (`retryAddLinInterval`) after each failed attempt; after 5 failed
attempts `setupNS` returns the wrapped "failed to find link" error carrying
the last lookup failure, having made exactly 5 lookups and 5 sleeps; and as
soon as an attempt succeeds it proceeds to bring the tunnel interface up. -/
theorem claimC1_tunnel_poll (env : SetupEnv) (h c g b cgw vni : String) (port : Int)
    (addr : IPNet) (table : Int) (cidrs : List String) (snat : Bool) :
    (∀ x, setupNS { env with cmdRun := x } h c g b addr table cidrs snat cgw vni port
        = setupNS env h c g b addr table cidrs snat cgw vni port) ∧
    retryAddLinInterval = 1 ∧
    ((pollGo env.geneveLookup g).2.countP (isLookupOf g) ≤ 5 ∧
     (pollGo env.geneveLookup g).2.countP isSleepEv ≤ 5) ∧
    (∀ e0 e1 e2 e3 e4,
      env.geneveLookup 0 = .error e0 → env.geneveLookup 1 = .error e1 →
      env.geneveLookup 2 = .error e2 → env.geneveLookup 3 = .error e3 →
      env.geneveLookup 4 = .error e4 →
      setupNS env h c g b addr table cidrs snat cgw vni port
        = (.error (.wrap ("setup NS network: failed to find link " ++ g) e4),
           [Ev.cmdRunGeneve g cgw vni (toString port),
            Ev.linkByName g, Ev.sleep 1, Ev.linkByName g, Ev.sleep 1, Ev.linkByName g,
            Ev.sleep 1, Ev.linkByName g, Ev.sleep 1, Ev.linkByName g, Ev.sleep 1])) ∧
    (∀ l t, pollGo env.geneveLookup g = (.ok l, t) →
      ∃ rest, (setupNS env h c g b addr table cidrs snat cgw vni port).2
        = (Ev.cmdRunGeneve g cgw vni (toString port) :: (t ++ [Ev.linkSetUp l])) ++ rest) := by
  refine ⟨?_, rfl, ?_, ?_, ?_⟩
  · intro x
    cases env
    rfl
  · have := pollAux_counts env.geneveLookup g 4 0
    exact ⟨this.1, this.2⟩
  · intro e0 e1 e2 e3 e4 h0 h1 h2 h3 h4
    simp [setupNS, seqE, setupGenevePhase, pollGo, pollAux, retryAddLinInterval,
      h0, h1, h2, h3, h4]
  · intro l t hp
    cases hgs : env.geneveSetUp with
    | error e =>
      exact ⟨[], by simp [setupNS, seqE, setupGenevePhase, hp, hgs]⟩
    | ok _ =>
      exact ⟨(setupRest env h c b addr table cidrs snat l).2,
        by simp [setupNS, seqE, setupGenevePhase, hp, hgs]⟩

/-- Witness for C1: with a geneve link that never becomes visible, `setupNS`
performs exactly 5 lookups with a sleep after each and returns the wrapped
"failed to find link" error. -/
theorem claimC1_tunnel_poll_witness :
    setupNS setupEnvNoLink "h1" "c1" "gnv1" "br0" addr0 2 [] false "10.0.2.10" "100" 6081
      = (.error (.wrap ("setup NS network: failed to find link " ++ "gnv1")
           (.msg "Link not found")),
         [Ev.cmdRunGeneve "gnv1" "10.0.2.10" "100" (toString (6081 : Int)),
          Ev.linkByName "gnv1", Ev.sleep 1, Ev.linkByName "gnv1", Ev.sleep 1,
          Ev.linkByName "gnv1", Ev.sleep 1, Ev.linkByName "gnv1", Ev.sleep 1,
          Ev.linkByName "gnv1", Ev.sleep 1]) :=
  (claimC1_tunnel_poll setupEnvNoLink "h1" "c1" "gnv1" "br0" "10.0.2.10" "100" 6081
    addr0 2 [] false).2.2.2.1 (.msg "Link not found") (.msg "Link not found")
    (.msg "Link not found") (.msg "Link not found") (.msg "Link not found")
    rfl rfl rfl rfl rfl

/-- C2: `tearDownNS` returns a non-nil error exactly when the table id is
positive and the removal of all from-pod rules fails (the returned error
wrapping that failure); the result is otherwise independent of every other
oracle, and regardless of earlier failures the to-pod rule delete, the
from-pod cleanup (when table > 0) and the host-route delete (when the
from-pod cleanup did not fail) still run. -/
theorem claimC2_teardown_error_policy (tenv : TeardownEnv) (addr : IPNet) (table : Int)
    (h g b : String) :
    ((∃ e, (tearDownNS tenv addr table h g b).1 = .error e) ↔
      (0 < table ∧ ∃ e, tenv.delRuleListBySrc = .error e)) ∧
    (∀ e, 0 < table → tenv.delRuleListBySrc = .error e →
      (tearDownNS tenv addr table h g b).1
        = .error (.wrap ("delete NS network: failed to delete fromContainer rule for "
            ++ ipNetText addr) e)) ∧
    (∀ tenv' : TeardownEnv, tenv'.delRuleListBySrc = tenv.delRuleListBySrc →
      (tearDownNS tenv' addr table h g b).1 = (tearDownNS tenv addr table h g b).1) ∧
    Ev.ruleDel (toPodDelRule addr) ∈ (tearDownNS tenv addr table h g b).2 ∧
    (0 < table → Ev.delRuleBySrc addr ∈ (tearDownNS tenv addr table h g b).2) ∧
    ((0 < table → tenv.delRuleListBySrc = .ok ()) →
      Ev.routeDel (hostDelRoute addr) ∈ (tearDownNS tenv addr table h g b).2) := by
  refine ⟨?_, ?_, ?_, ?_, ?_, ?_⟩
  · by_cases ht : (0 : Int) < table <;> cases hd : tenv.delRuleListBySrc <;>
      simp [tearDownNS, ht, hd]
  · intro e ht hd
    simp [tearDownNS, ht, hd]
  · intro tenv' he
    by_cases ht : (0 : Int) < table <;> cases hd : tenv.delRuleListBySrc <;>
      simp [tearDownNS, ht, hd, he]
  · by_cases ht : (0 : Int) < table <;> cases hd : tenv.delRuleListBySrc <;>
      simp [tearDownNS, ht, hd]
  · intro ht
    cases hd : tenv.delRuleListBySrc <;> simp [tearDownNS, ht, hd]
  · intro hok
    by_cases ht : (0 : Int) < table
    · have := hok ht
      simp [tearDownNS, ht, this]
    · simp [tearDownNS, ht]

/-- Witness for C2: with table 2 and a failing from-pod rule removal the
teardown returns an error. -/
theorem claimC2_teardown_error_policy_witness :
    ∃ e, (tearDownNS teardownEnvRuleFail addr0 2 "h1" "gnv1" "br0").1 = .error e :=
  (claimC2_teardown_error_policy teardownEnvRuleFail addr0 2 "h1" "gnv1" "br0").1.2
    ⟨by norm_num, ⟨.msg "rule del failed", rfl⟩⟩

/-- Helper: the concrete all-success environment satisfies `SetupOk`. -/
theorem setupEnvOk_SetupOk : SetupOk setupEnvOk addr0 linkG linkHost linkBr linkHost linkCont :=
  ⟨rfl, rfl, ⟨.msg "Link not found", rfl⟩, rfl, rfl, rfl, rfl, rfl, rfl, rfl, rfl, rfl,
   rfl, rfl, rfl, rfl, rfl, rfl, rfl, rfl, rfl, rfl, rfl, rfl, rfl, rfl⟩

/-- C3: whenever the earlier attach steps succeed, `setupNS` installs the
to-pod rule (destination = pod address, priority 512, main table 254) for
every routing-table id; with table id 0 every rule it installs is that
to-pod rule (none has a source match, i.e. no from-pod rule of any kind),
and `tearDownNS` with table id 0 issues no from-pod rule cleanup. -/
theorem claimC3_toPod_rule_and_table0 (env : SetupEnv) (h c g b cgw vni : String)
    (port : Int) (addr : IPNet) (table : Int) (cidrs : List String) (snat : Bool)
    (gv hostVeth br vhl vcl : Link)
    (hok : SetupOk env addr gv hostVeth br vhl vcl) :
    Ev.ruleAdd (mkContainerRule true addr toContainerRulePriority mainRouteTable)
        ∈ (setupNS env h c g b addr table cidrs snat cgw vni port).2 ∧
    (mkContainerRule true addr toContainerRulePriority mainRouteTable).dst = some addr ∧
    toContainerRulePriority = 512 ∧ mainRouteTable = 254 ∧
    (∀ r, Ev.ruleAdd r ∈ (setupNS env h c g b addr 0 cidrs snat cgw vni port).2 →
        r.src = none ∧ r.priority = toContainerRulePriority) ∧
    (∀ tenv : TeardownEnv, Ev.delRuleBySrc addr ∉ (tearDownNS tenv addr 0 h g b).2) := by
  refine ⟨?_, by simp [mkContainerRule, newRule], rfl, rfl, ?_, ?_⟩
  · rw [setupNS_ok env h c g b cgw vni port addr table cidrs snat gv hostVeth br vhl vcl hok]
    simp [setupPreTrace, vethFullTrace]
  · intro r hr
    rw [setupNS_ok env h c g b cgw vni port addr 0 cidrs snat gv hostVeth br vhl vcl hok] at hr
    simp [fromPodPhase, setupPreTrace, vethFullTrace] at hr
    subst hr
    simp [mkContainerRule, newRule]
  · intro tenv
    cases hg : tenv.geneveLookup <;> rcases hb : tenv.brByName with e | br'
    · simp [tearDownNS, bridgeByName, hg, hb]
    · by_cases hk : br'.kind = "bridge" <;> simp [tearDownNS, bridgeByName, hg, hb, hk]
    · simp [tearDownNS, bridgeByName, hg, hb]
    · by_cases hk : br'.kind = "bridge" <;> simp [tearDownNS, bridgeByName, hg, hb, hk]

/-- Witness for C3: in the all-success attach with table 0, the to-pod rule
is installed at priority 512 on the main table. -/
theorem claimC3_witness :
    Ev.ruleAdd (mkContainerRule true addr0 toContainerRulePriority mainRouteTable)
      ∈ (setupNS setupEnvOk "h1" "c1" "gnv1" "br0" addr0 0 [] false "10.0.2.10" "100" 6081).2 :=
  (claimC3_toPod_rule_and_table0 setupEnvOk "h1" "c1" "gnv1" "br0" "10.0.2.10" "100" 6081
    addr0 0 [] false linkG linkHost linkBr linkHost linkCont setupEnvOk_SetupOk).1

/-- C4: with external SNAT disabled and a positive table id, once the
pipeline reaches the from-pod step it installs exactly one rule per VPC CIDR,
in list order, each with source = pod address, priority 1536, the given
table, and destination parsed from that CIDR — the rules are identical except
for the destination match — and the per-CIDR loop never issues the
delete-then-add duplicate guard. -/
theorem claimC4_cidr_fanout (env : SetupEnv) (h c g b cgw vni : String) (port : Int)
    (addr : IPNet) (table : Int) (cidrs : List String)
    (gv hostVeth br vhl vcl : Link)
    (hok : SetupOk env addr gv hostVeth br vhl vcl)
    (ht : 0 < table)
    (hadds : ∀ cc ∈ cidrs,
      env.ruleEnv.ruleAdd (podRuleFor env.parseCIDR addr table cc) = .ok ()) :
    setupNS env h c g b addr table cidrs false cgw vni port
      = (.ok (), setupPreTrace h c g b cgw vni port addr gv hostVeth br vhl vcl
          ++ cidrs.map fun cc => Ev.ruleAdd (podRuleFor env.parseCIDR addr table cc)) ∧
    ((setupNS env h c g b addr table cidrs false cgw vni port).2.filter isFromPodRuleAdd
      = cidrs.map fun cc => Ev.ruleAdd (podRuleFor env.parseCIDR addr table cc)) ∧
    (∀ cc, (podRuleFor env.parseCIDR addr table cc).src = some addr ∧
      (podRuleFor env.parseCIDR addr table cc).priority = fromContainerRulePriority ∧
      (podRuleFor env.parseCIDR addr table cc).table = table ∧
      (podRuleFor env.parseCIDR addr table cc).dst = env.parseCIDR cc) ∧
    fromContainerRulePriority = 1536 ∧
    (∀ c1 c2 : String,
      { podRuleFor env.parseCIDR addr table c1 with dst := none }
        = { podRuleFor env.parseCIDR addr table c2 with dst := none }) ∧
    (∀ (ra : Rule → Except GoErr Unit) (pa : String → Option IPNet) (a : IPNet)
        (tb : Int) (l : List String) (r : Rule),
      Ev.ruleDel r ∉ (cidrLoop ra pa a tb l).2) := by
  have hs := setupNS_ok env h c g b cgw vni port addr table cidrs false
    gv hostVeth br vhl vcl hok
  have hfp : fromPodPhase env.ruleEnv env.parseCIDR addr table cidrs false
      = (.ok (), cidrs.map fun cc => Ev.ruleAdd (podRuleFor env.parseCIDR addr table cc)) := by
    simp [fromPodPhase, ht,
      cidrLoop_ok env.ruleEnv.ruleAdd env.parseCIDR addr table cidrs hadds]
  refine ⟨?_, ?_, ?_, rfl, ?_, ?_⟩
  · rw [hs, hfp]
  · rw [hs, hfp]
    dsimp only
    rw [List.filter_append, filter_fromPod_map]
    simp [setupPreTrace, vethFullTrace, isFromPodRuleAdd, mkContainerRule, newRule,
      toContainerRulePriority, fromContainerRulePriority]
  · intro cc
    simp [podRuleFor, newRule]
  · intro c1 c2
    simp [podRuleFor, newRule]
  · exact fun ra pa a tb l r => cidrLoop_no_ruleDel ra pa a tb l r

/-- Witness for C4: one CIDR yields exactly one from-pod rule appended to the
successful pre-trace. -/
theorem claimC4_cidr_fanout_witness :
    setupNS setupEnvOk "h1" "c1" "gnv1" "br0" addr0 2 ["10.0.0.0/16"] false
        "10.0.2.10" "100" 6081
      = (.ok (), setupPreTrace "h1" "c1" "gnv1" "br0" "10.0.2.10" "100" 6081 addr0
          linkG linkHost linkBr linkHost linkCont
          ++ ["10.0.0.0/16"].map fun cc =>
              Ev.ruleAdd (podRuleFor setupEnvOk.parseCIDR addr0 2 cc)) :=
  (claimC4_cidr_fanout setupEnvOk "h1" "c1" "gnv1" "br0" "10.0.2.10" "100" 6081 addr0 2
    ["10.0.0.0/16"] linkG linkHost linkBr linkHost linkCont setupEnvOk_SetupOk
    (by norm_num) (fun cc _ => rfl)).1

/-- C10: in any attach whose earlier steps succeed, the veth pair is created
with the fixed MTU 9001 while the bridge is ensured with the fixed MTU 1500;
both are request-independent constants, and the pod-side MTU exceeds the
bridge MTU. -/
theorem claimC10_mtu_mismatch (env : SetupEnv) (h c g b cgw vni : String) (port : Int)
    (addr : IPNet) (table : Int) (cidrs : List String) (snat : Bool)
    (gv hostVeth br vhl vcl : Link)
    (hok : SetupOk env addr gv hostVeth br vhl vcl) :
    Ev.vethAdd c h ethernetMTU ∈ (setupNS env h c g b addr table cidrs snat cgw vni port).2 ∧
    Ev.bridgeAdd b 1500 ∈ (setupNS env h c g b addr table cidrs snat cgw vni port).2 ∧
    ethernetMTU = 9001 ∧ 1500 < ethernetMTU := by
  have hs := setupNS_ok env h c g b cgw vni port addr table cidrs snat
    gv hostVeth br vhl vcl hok
  refine ⟨?_, ?_, rfl, by norm_num [ethernetMTU]⟩
  · rw [hs]
    simp [setupPreTrace, vethFullTrace]
  · rw [hs]
    simp [setupPreTrace, vethFullTrace]

/-- Witness for C10: the concrete all-success attach creates the veth pair at
MTU 9001 and the bridge at MTU 1500. -/
theorem claimC10_mtu_mismatch_witness :
    Ev.vethAdd "c1" "h1" ethernetMTU
        ∈ (setupNS setupEnvOk "h1" "c1" "gnv1" "br0" addr0 2 [] true "10.0.2.10" "100" 6081).2 ∧
    Ev.bridgeAdd "br0" 1500
        ∈ (setupNS setupEnvOk "h1" "c1" "gnv1" "br0" addr0 2 [] true "10.0.2.10" "100" 6081).2 :=
  ⟨(claimC10_mtu_mismatch setupEnvOk "h1" "c1" "gnv1" "br0" "10.0.2.10" "100" 6081 addr0 2
      [] true linkG linkHost linkBr linkHost linkCont setupEnvOk_SetupOk).1,
   (claimC10_mtu_mismatch setupEnvOk "h1" "c1" "gnv1" "br0" "10.0.2.10" "100" 6081 addr0 2
      [] true linkG linkHost linkBr linkHost linkCont setupEnvOk_SetupOk).2.1⟩

/-- C5: `addContainerRule` builds one rule — destination = addr when to-pod,
source = addr otherwise, with the given table and priority — first attempts
to delete a pre-existing identical rule, ignores an ENOENT ("no such entry")
failure of that delete, then adds the rule; it returns a wrapped error
exactly when the delete fails with a non-ENOENT error (in which case the add
is not attempted) or the add fails, and nil otherwise. -/
theorem claimC5_addContainerRule (renv : RuleEnv) (isToContainer : Bool) (addr : IPNet)
    (priority table : Int) :
    ((mkContainerRule isToContainer addr priority table).dst
        = if isToContainer then some addr else none) ∧
    ((mkContainerRule isToContainer addr priority table).src
        = if isToContainer then none else some addr) ∧
    (mkContainerRule isToContainer addr priority table).table = table ∧
    (mkContainerRule isToContainer addr priority table).priority = priority ∧
    containsNoSuchRule (.errno ENOENT) = true ∧
    (∀ hdel : renv.ruleDel (mkContainerRule isToContainer addr priority table) = .ok ()
        ∨ ∃ e, renv.ruleDel (mkContainerRule isToContainer addr priority table) = .error e
            ∧ containsNoSuchRule e = true,
      renv.ruleAdd (mkContainerRule isToContainer addr priority table) = .ok () →
      addContainerRule renv isToContainer addr priority table
        = (.ok (), [Ev.ruleDel (mkContainerRule isToContainer addr priority table),
                    Ev.ruleAdd (mkContainerRule isToContainer addr priority table)])) ∧
    (∀ e, renv.ruleDel (mkContainerRule isToContainer addr priority table) = .error e →
      containsNoSuchRule e = false →
      addContainerRule renv isToContainer addr priority table
        = (.error (.wrap ("add NS network: failed to delete old container rule for "
              ++ ipNetText addr) e),
           [Ev.ruleDel (mkContainerRule isToContainer addr priority table)])) ∧
    (∀ e, (renv.ruleDel (mkContainerRule isToContainer addr priority table) = .ok ()
        ∨ ∃ e2, renv.ruleDel (mkContainerRule isToContainer addr priority table) = .error e2
            ∧ containsNoSuchRule e2 = true) →
      renv.ruleAdd (mkContainerRule isToContainer addr priority table) = .error e →
      (addContainerRule renv isToContainer addr priority table).1
        = .error (.wrap ("add NS network: failed to add container rule  for "
            ++ ipNetText addr) e)) ∧
    ((∃ e, (addContainerRule renv isToContainer addr priority table).1 = .error e) ↔
      ((∃ e, renv.ruleDel (mkContainerRule isToContainer addr priority table) = .error e
          ∧ containsNoSuchRule e = false) ∨
       ∃ e, renv.ruleAdd (mkContainerRule isToContainer addr priority table) = .error e)) := by
  refine ⟨?_, ?_, ?_, ?_, rfl, ?_, ?_, ?_, ?_⟩
  · cases isToContainer <;> simp [mkContainerRule, newRule]
  · cases isToContainer <;> simp [mkContainerRule, newRule]
  · cases isToContainer <;> simp [mkContainerRule, newRule]
  · cases isToContainer <;> simp [mkContainerRule, newRule]
  · rintro (hdel | ⟨e, hdel, he⟩) hadd
    · simp [addContainerRule, hdel, hadd]
    · simp [addContainerRule, hdel, he, hadd]
  · intro e hdel he
    simp [addContainerRule, hdel, he]
  · rintro e (hdel | ⟨e2, hdel, he2⟩) hadd
    · simp [addContainerRule, hdel, hadd]
    · simp [addContainerRule, hdel, he2, hadd]
  · cases hdel : renv.ruleDel (mkContainerRule isToContainer addr priority table) with
    | error e =>
      cases he : containsNoSuchRule e with
      | true =>
        cases hadd : renv.ruleAdd (mkContainerRule isToContainer addr priority table) <;>
          simp [addContainerRule, hdel, he, hadd]
      | false =>
        simp [addContainerRule, hdel, he]
    | ok _ =>
      cases hadd : renv.ruleAdd (mkContainerRule isToContainer addr priority table) <;>
        simp [addContainerRule, hdel, hadd]

/-- Witness for C5: with both rule operations succeeding the call returns nil
after a delete-then-add. -/
theorem claimC5_addContainerRule_witness :
    addContainerRule ruleEnvOk true addr0 toContainerRulePriority mainRouteTable
      = (.ok (), [Ev.ruleDel (mkContainerRule true addr0 toContainerRulePriority mainRouteTable),
                  Ev.ruleAdd (mkContainerRule true addr0 toContainerRulePriority mainRouteTable)]) :=
  (claimC5_addContainerRule ruleEnvOk true addr0 toContainerRulePriority mainRouteTable
    ).2.2.2.2.2.1 (Or.inl rfl) rfl

/-- C6: `ensureBridge` treats an EEXIST result from bridge creation exactly
like success (so a second call on the same name behaves as the first); when
promiscuous mode is requested it enables it, then re-resolves the device by
name, fails if the resolved device is not a bridge, and brings the bridge up
as the last operation before returning the re-resolved bridge. -/
theorem claimC6_ensureBridge (benv : BridgeEnv) (name : String) (mtu : Nat) (promisc : Bool) :
    (benv.linkAdd = .error (.errno EEXIST) →
      ensureBridge benv name mtu promisc
        = ensureBridge { benv with linkAdd := .ok () } name mtu promisc) ∧
    (∀ l, benv.byName = .ok l → l.kind = "bridge" → benv.setPromiscOn = .ok () →
      benv.brSetUp = .ok () →
      (benv.linkAdd = .ok () ∨ benv.linkAdd = .error (.errno EEXIST)) →
      ensureBridge benv name mtu true
        = (.ok l, [Ev.bridgeAdd name mtu, Ev.setPromiscOn name, Ev.linkByName name,
                   Ev.linkSetUp l])) ∧
    (∀ l, benv.byName = .ok l → l.kind ≠ "bridge" →
      (benv.linkAdd = .ok () ∨ benv.linkAdd = .error (.errno EEXIST)) →
      (promisc = true → benv.setPromiscOn = .ok ()) →
      (ensureBridge benv name mtu promisc).1
        = .error (.msg (name ++ " already exists but is not a bridge"))) := by
  refine ⟨?_, ?_, ?_⟩
  · intro he
    obtain ⟨la, sp, bn, su⟩ := benv
    simp only at he
    subst he
    simp only [ensureBridge]
    rfl
  · rintro l hb hk hp hup (ha | ha) <;>
      simp [ensureBridge, ensureBridgeAfterAdd, bridgeByName, ha, hb, hk, hp, hup]
  · rintro l hb hk (ha | ha) hp <;> cases promisc with
    | true =>
      simp [ensureBridge, ensureBridgeAfterAdd, bridgeByName, ha, hb, hk, hp rfl]
    | false =>
      simp [ensureBridge, ensureBridgeAfterAdd, bridgeByName, ha, hb, hk]

/-- Witness for C6: a second ensure on an existing name (EEXIST from the
kernel) still succeeds, returning the re-resolved bridge after bringing it
up. -/
theorem claimC6_ensureBridge_witness :
    ensureBridge brEnvExist "br0" 1500 true
      = (.ok linkBr, [Ev.bridgeAdd "br0" 1500, Ev.setPromiscOn "br0", Ev.linkByName "br0",
                      Ev.linkSetUp linkBr]) :=
  (claimC6_ensureBridge brEnvExist "br0" 1500 true).2.1 linkBr rfl rfl rfl rfl (Or.inr rfl)

/-- C7 counterexample: the declared `NetworkAPIs` interface and the concrete
`linuxNetwork.TeardownNS` implementation do not agree on the parameter
meanings: the interface names the fourth parameter `contVethName` where the
implementation takes the tunnel interface name (`geneveName`), so their
parameter lists differ. -/
theorem claimC7_counterexample :
    networkAPIsTeardownParams.get? 3 = some "contVethName" ∧
    linuxNetworkTeardownParams.get? 3 = some "geneveName" ∧
    networkAPIsTeardownParams ≠ linuxNetworkTeardownParams := by
  refine ⟨rfl, rfl, ?_⟩
  intro hcontra
  have h3 := congrArg (fun l => l.get? 3) hcontra
  simp [networkAPIsTeardownParams, linuxNetworkTeardownParams] at h3

/-- C7 (amended): the concrete `linuxNetwork.TeardownNS` takes, in order,
the pod address, the routing-table id, the host veth name, the tunnel
interface name and the bridge name — its fourth argument is resolved first
as the tunnel link and its fifth looked up as the bridge — but the declared
`NetworkAPIs` interface names its fourth parameter `contVethName` and its
fifth `geneveName`: interface and implementation agree on arity and on the
first three parameters and disagree on the names/meanings of the fourth and
fifth. -/
theorem claimC7_teardown_signature :
    linuxNetworkTeardownParams = ["addr", "table", "hostVethName", "geneveName", "brName"] ∧
    specTeardownParams.length = 5 ∧ linuxNetworkTeardownParams.length = 5 ∧
    networkAPIsTeardownParams.length = 5 ∧
    networkAPIsTeardownParams.take 3 = linuxNetworkTeardownParams.take 3 ∧
    networkAPIsTeardownParams.get? 3 ≠ linuxNetworkTeardownParams.get? 3 ∧
    networkAPIsTeardownParams.get? 4 ≠ linuxNetworkTeardownParams.get? 4 ∧
    (∀ (tenv : TeardownEnv) (addr : IPNet) (table : Int) (h g b : String),
      (tearDownNS tenv addr table h g b).2.head? = some (Ev.linkByName g) ∧
      Ev.linkByName b ∈ (tearDownNS tenv addr table h g b).2) := by
  refine ⟨rfl, rfl, rfl, rfl, rfl, ?_, ?_, ?_⟩
  · simp [networkAPIsTeardownParams, linuxNetworkTeardownParams]
  · simp [networkAPIsTeardownParams, linuxNetworkTeardownParams]
  · intro tenv addr table h g b
    constructor
    · by_cases ht : (0 : Int) < table <;> cases hd : tenv.delRuleListBySrc <;>
        cases hg : tenv.geneveLookup <;> simp [tearDownNS, hg, ht, hd]
    · by_cases ht : (0 : Int) < table <;> cases hd : tenv.delRuleListBySrc <;>
        cases hg : tenv.geneveLookup <;> rcases hb : tenv.brByName with e | br' <;>
        simp [tearDownNS, bridgeByName, hg, hb, ht, hd]
      all_goals (by_cases hk : br'.kind = "bridge" <;> simp [hk])

/-- Witness for C7's amended statement: concretely, the fourth positional
teardown argument is the name the implementation resolves first (the
tunnel). -/
theorem claimC7_teardown_signature_witness :
    (tearDownNS teardownEnvOk addr0 2 "h1" "gnv1" "br0").2.head?
      = some (Ev.linkByName "gnv1") :=
  (claimC7_teardown_signature.2.2.2.2.2.2.2 teardownEnvOk addr0 2 "h1" "gnv1" "br0").1

/-- C8 counterexample: when the initial veth-pair creation fails, the closure
returns the failure unchanged — not a wrapped error identifying the failed
step — refuting the claim that every failing step yields a wrapped error. -/
theorem claimC8_counterexample :
    (vethRun vethEnvAddFail "c1" "h1" phyAddr addr0).1 = .error (.msg "veth add failed") ∧
    GoErr.isWrap (.msg "veth add failed") = false := by
  exact ⟨rfl, rfl⟩

/-- C8 (amended): the veth closure performs its steps in exactly the claimed
source order — create the pair, bring both ends up, add the connected route
to 169.254.1.1/32, add the default route via it, assign the pod address,
install the permanent neighbor entry, and only then move the host end to the
host namespace — and any step's failure returns immediately with no later
step performed and no earlier step undone; every step after the initial
creation wraps its error naming the step, while a creation failure is
returned unchanged (unwrapped). -/
theorem claimC8_vethRun_order (venv : VethEnv) (cn hn : String) (hw : List Nat) (a : IPNet) :
    (∀ hl cl, venv.linkAdd = .ok () → venv.hostByName = .ok hl → venv.hostSetUp = .ok () →
      venv.contByName = .ok cl → venv.contSetUp = .ok () → venv.routeAdd = .ok () →
      venv.defaultRoute = .ok () → venv.addrAdd = .ok () → venv.neighAdd = .ok () →
      venv.setNsFd = .ok () →
      vethRun venv cn hn hw a = (.ok (), vethFullTrace cn hn hw a hl cl)) ∧
    (∀ e, venv.linkAdd = .error e →
      vethRun venv cn hn hw a = (.error e, [Ev.vethAdd cn hn ethernetMTU])) ∧
    (∀ e, venv.linkAdd = .ok () → venv.hostByName = .error e →
      vethRun venv cn hn hw a
        = (.error (.wrap ("setup NS network: failed to find link " ++ hn) e),
           [Ev.vethAdd cn hn ethernetMTU, Ev.linkByName hn])) ∧
    (∀ e hl, venv.linkAdd = .ok () → venv.hostByName = .ok hl → venv.hostSetUp = .error e →
      vethRun venv cn hn hw a
        = (.error (.wrap ("setup NS network: failed to set link " ++ hn ++ " up") e),
           [Ev.vethAdd cn hn ethernetMTU, Ev.linkByName hn, Ev.linkSetUp hl])) ∧
    (∀ e hl, venv.linkAdd = .ok () → venv.hostByName = .ok hl → venv.hostSetUp = .ok () →
      venv.contByName = .error e →
      vethRun venv cn hn hw a
        = (.error (.wrap ("setup NS network: failed to find link " ++ cn) e),
           [Ev.vethAdd cn hn ethernetMTU, Ev.linkByName hn, Ev.linkSetUp hl,
            Ev.linkByName cn])) ∧
    (∀ e hl cl, venv.linkAdd = .ok () → venv.hostByName = .ok hl → venv.hostSetUp = .ok () →
      venv.contByName = .ok cl → venv.contSetUp = .error e →
      vethRun venv cn hn hw a
        = (.error (.wrap ("setup NS network: failed to set link " ++ cn ++ " up") e),
           [Ev.vethAdd cn hn ethernetMTU, Ev.linkByName hn, Ev.linkSetUp hl,
            Ev.linkByName cn, Ev.linkSetUp cl])) ∧
    (∀ e hl cl, venv.linkAdd = .ok () → venv.hostByName = .ok hl → venv.hostSetUp = .ok () →
      venv.contByName = .ok cl → venv.contSetUp = .ok () → venv.routeAdd = .error e →
      vethRun venv cn hn hw a
        = (.error (.wrap "setup NS network: failed to add default gateway" e),
           [Ev.vethAdd cn hn ethernetMTU, Ev.linkByName hn, Ev.linkSetUp hl,
            Ev.linkByName cn, Ev.linkSetUp cl, Ev.routeAdd (contGwRoute cl)])) ∧
    (∀ e hl cl, venv.linkAdd = .ok () → venv.hostByName = .ok hl → venv.hostSetUp = .ok () →
      venv.contByName = .ok cl → venv.contSetUp = .ok () → venv.routeAdd = .ok () →
      venv.defaultRoute = .error e →
      vethRun venv cn hn hw a
        = (.error (.wrap "setup NS network: failed to add default route" e),
           [Ev.vethAdd cn hn ethernetMTU, Ev.linkByName hn, Ev.linkSetUp hl,
            Ev.linkByName cn, Ev.linkSetUp cl, Ev.routeAdd (contGwRoute cl),
            Ev.addDefaultRoute gwIP cl])) ∧
    (∀ e hl cl, venv.linkAdd = .ok () → venv.hostByName = .ok hl → venv.hostSetUp = .ok () →
      venv.contByName = .ok cl → venv.contSetUp = .ok () → venv.routeAdd = .ok () →
      venv.defaultRoute = .ok () → venv.addrAdd = .error e →
      vethRun venv cn hn hw a
        = (.error (.wrap ("setup NS network: failed to add IP addr to " ++ cn) e),
           [Ev.vethAdd cn hn ethernetMTU, Ev.linkByName hn, Ev.linkSetUp hl,
            Ev.linkByName cn, Ev.linkSetUp cl, Ev.routeAdd (contGwRoute cl),
            Ev.addDefaultRoute gwIP cl, Ev.addrAdd cl a])) ∧
    (∀ e hl cl, venv.linkAdd = .ok () → venv.hostByName = .ok hl → venv.hostSetUp = .ok () →
      venv.contByName = .ok cl → venv.contSetUp = .ok () → venv.routeAdd = .ok () →
      venv.defaultRoute = .ok () → venv.addrAdd = .ok () → venv.neighAdd = .error e →
      vethRun venv cn hn hw a
        = (.error (.wrap "setup NS network: failed to add static ARP" e),
           [Ev.vethAdd cn hn ethernetMTU, Ev.linkByName hn, Ev.linkSetUp hl,
            Ev.linkByName cn, Ev.linkSetUp cl, Ev.routeAdd (contGwRoute cl),
            Ev.addDefaultRoute gwIP cl, Ev.addrAdd cl a,
            Ev.neighAdd (gwNeigh cl hw)])) ∧
    (∀ e hl cl, venv.linkAdd = .ok () → venv.hostByName = .ok hl → venv.hostSetUp = .ok () →
      venv.contByName = .ok cl → venv.contSetUp = .ok () → venv.routeAdd = .ok () →
      venv.defaultRoute = .ok () → venv.addrAdd = .ok () → venv.neighAdd = .ok () →
      venv.setNsFd = .error e →
      vethRun venv cn hn hw a
        = (.error (.wrap "setup NS network: failed to move veth to host netns" e),
           [Ev.vethAdd cn hn ethernetMTU, Ev.linkByName hn, Ev.linkSetUp hl,
            Ev.linkByName cn, Ev.linkSetUp cl, Ev.routeAdd (contGwRoute cl),
            Ev.addDefaultRoute gwIP cl, Ev.addrAdd cl a, Ev.neighAdd (gwNeigh cl hw),
            Ev.linkSetNsFd hl])) := by
  refine ⟨?_, ?_, ?_, ?_, ?_, ?_, ?_, ?_, ?_, ?_, ?_⟩
  · intro hl cl h1 h2 h3 h4 h5 h6 h7 h8 h9 h10
    simp [vethRun, vethFullTrace, h1, h2, h3, h4, h5, h6, h7, h8, h9, h10]
  · intro e h1
    simp [vethRun, h1]
  · intro e h1 h2
    simp [vethRun, h1, h2]
  · intro e hl h1 h2 h3
    simp [vethRun, h1, h2, h3]
  · intro e hl h1 h2 h3 h4
    simp [vethRun, h1, h2, h3, h4]
  · intro e hl cl h1 h2 h3 h4 h5
    simp [vethRun, h1, h2, h3, h4, h5]
  · intro e hl cl h1 h2 h3 h4 h5 h6
    simp [vethRun, h1, h2, h3, h4, h5, h6]
  · intro e hl cl h1 h2 h3 h4 h5 h6 h7
    simp [vethRun, h1, h2, h3, h4, h5, h6, h7]
  · intro e hl cl h1 h2 h3 h4 h5 h6 h7 h8
    simp [vethRun, h1, h2, h3, h4, h5, h6, h7, h8]
  · intro e hl cl h1 h2 h3 h4 h5 h6 h7 h8 h9
    simp [vethRun, h1, h2, h3, h4, h5, h6, h7, h8, h9]
  · intro e hl cl h1 h2 h3 h4 h5 h6 h7 h8 h9 h10
    simp [vethRun, h1, h2, h3, h4, h5, h6, h7, h8, h9, h10]

/-- Witness for C8's amended statement: the all-success closure performs the
ten operations in order, ending with the move of the host end. -/
theorem claimC8_vethRun_order_witness :
    vethRun vethEnvOk "c1" "h1" phyAddr addr0
      = (.ok (), vethFullTrace "c1" "h1" phyAddr addr0 linkHost linkCont) :=
  (claimC8_vethRun_order vethEnvOk "c1" "h1" phyAddr addr0).1 linkHost linkCont
    rfl rfl rfl rfl rfl rfl rfl rfl rfl rfl

/-- C9: for a network with no config entry (`AllocatePort`) or no port table
(`AllocatePort` and `ReleasePort`), the controller fails with the unknown-
network error — `AllocatePort` returns `(-1, "", "", UnKnownNetwork)` and
`ReleasePort` returns `UnKnownNetwork`, in both cases without invoking the
port store — while on success `AllocatePort` returns the allocated port
together with the network's CGWIP and VNID. -/
theorem claimC9_unknown_network (c : ENIEnv) (networkName podName : String) (port : Int) :
    (c.eni networkName = none →
      AllocatePort c networkName podName = ((-1, "", "", some UnKnownNetwork), [])) ∧
    (c.portMap networkName = none →
      AllocatePort c networkName podName = ((-1, "", "", some UnKnownNetwork), [])) ∧
    (c.portMap networkName = none →
      ReleasePort c networkName port = (some UnKnownNetwork, [])) ∧
    (∀ eni pm p, c.eni networkName = some eni → c.portMap networkName = some pm →
      c.allocPort pm podName = .ok p →
      AllocatePort c networkName podName
        = ((p, eni.cgwIP, eni.vnid, none), [PEv.alloc pm podName])) := by
  refine ⟨?_, ?_, ?_, ?_⟩
  · intro he
    simp [AllocatePort, he]
  · intro hp
    cases he : c.eni networkName <;> simp [AllocatePort, he, hp]
  · intro hp
    simp [ReleasePort, hp]
  · intro eni pm p he hp ha
    simp [AllocatePort, he, hp, ha]

/-- Witness for C9: an unconfigured network name fails allocation with the
unknown-network error without touching the port store. -/
theorem claimC9_unknown_network_witness :
    AllocatePort eniEnv0 "nope" "pod-1" = ((-1, "", "", some UnKnownNetwork), []) :=
  (claimC9_unknown_network eniEnv0 "nope" "pod-1" 0).1 (by simp [eniEnv0])
